import Mathlib

/-!
Verification of the frame-lifecycle orchestrator (`src/framework/app-base.js`)
and the material dependency resolver (`src/framework/handlers/material.js`) of
the engine repository. The JavaScript source is shallowly embedded: numbers are
exact rationals, the mutable application object is an explicit state record,
the external frame-request source and the wall clock are explicit parameters,
and every embedded function cites the source lines it translates.
-/

namespace EngineCore

/-- JS truthiness fallback `x || y` for a numeric value: `0` is falsy. -/
def jsOrQ (x y : ℚ) : ℚ := if x = 0 then y else x

/-- JS truthiness fallback `x || y` where `x` may also be `undefined`
(a missing rAF timestamp). -/
def jsOrOpt (x : Option ℚ) (y : ℚ) : ℚ :=
  match x with
  | none => y
  | some v => jsOrQ v y

/-- Modelled from the spec: `math.clamp` (core/math/math.js is not under src/).
Spec section 4.1 gives `dt = clamp(elapsed / unitsPerSecond, 0, maxDelta) * scale`;
`clamp(v, lo, hi)` returns `hi` when `v ≥ hi`, `lo` when `v ≤ lo`, else `v`. -/
def clamp (v lo hi : ℚ) : ℚ := if hi ≤ v then hi else if v ≤ lo then lo else v

/-- The per-frame delta computation of `makeTick` (app-base.js lines 2019-2025):
`currentTime = _processTimestamp(timestamp) || now()` where `_processTimestamp`
is the identity (lines 1551-1553); `ms = currentTime - (_time || currentTime)`;
`dt = clamp(ms / 1000, 0, maxDeltaTime) * timeScale`. The wall clock `now()` is
the oracle argument `nowVal`. Returns `(dt, currentTime)`. -/
def computeDt (time : ℚ) (timestamp : Option ℚ) (nowVal maxDeltaTime timeScale : ℚ) :
    ℚ × ℚ :=
  let currentTime := jsOrOpt timestamp nowVal
  let ms := currentTime - jsOrQ time currentTime
  let dt := clamp (ms / 1000) 0 maxDeltaTime * timeScale
  (dt, currentTime)

/-- Run the clock over a list of `(timestamp, wall clock)` pairs starting from
stored previous time `time` (initially `0`, app-base.js line 190), returning the
emitted dt sequence. -/
def runClock (time : ℚ) (frames : List (Option ℚ × ℚ)) (maxDeltaTime timeScale : ℚ) :
    List ℚ :=
  match frames with
  | [] => []
  | (ts, nv) :: rest =>
    let r := computeDt time ts nv maxDeltaTime timeScale
    r.1 :: runClock r.2 rest maxDeltaTime timeScale

/-- Sub-phases executed by `AppBase.update` and `AppBase.inputUpdate`. -/
inductive UpdPhase
  | deviceUpdate
  | simUpdate
  | animationUpdate
  | postUpdate
  | fireUpdateEvent
  | controllerUpdate
  | mouseUpdate
  | keyboardUpdate
  | gamepadsUpdate
deriving DecidableEq

/-- `AppBase.inputUpdate` (app-base.js lines 990-1003): controller, mouse,
keyboard and gamepads are each updated when attached, in that order. -/
def inputUpdate (hasController hasMouse hasKeyboard hasGamepads : Bool) : List UpdPhase :=
  (if hasController then [UpdPhase.controllerUpdate] else []) ++
  (if hasMouse then [UpdPhase.mouseUpdate] else []) ++
  (if hasKeyboard then [UpdPhase.keyboardUpdate] else []) ++
  (if hasGamepads then [UpdPhase.gamepadsUpdate] else [])

/-- `AppBase.update` (app-base.js lines 1013-1035): graphics-device update, the
component `update` round, `animationUpdate`, `postUpdate`, the application
`update` event, and then `inputUpdate` runs the input devices last. -/
def updatePhases (hasController hasMouse hasKeyboard hasGamepads : Bool) : List UpdPhase :=
  [UpdPhase.deviceUpdate, UpdPhase.simUpdate, UpdPhase.animationUpdate,
   UpdPhase.postUpdate, UpdPhase.fireUpdateEvent] ++
  inputUpdate hasController hasMouse hasKeyboard hasGamepads

/-- Index of the first occurrence of `p` in `l` (length of `l` if absent). -/
abbrev phaseIdx (p : UpdPhase) (l : List UpdPhase) : Nat := l.findIdx (· == p)

/-- Phase `a` runs strictly before phase `b` in the phase list `l`. -/
abbrev precedes (a b : UpdPhase) (l : List UpdPhase) : Prop := phaseIdx a l < phaseIdx b l

/-- The render backend as seen by the tick function: only the context-lost
query (line 2034) is consulted. -/
structure GfxDevice where
  contextLost : Bool
deriving DecidableEq

/-- The external frame-request source (spec section 6): `request` hands out
fresh handles, `cancel` withdraws one; `outstanding` lists the non-canceled
requests. -/
structure FrameWorld where
  nextId : Nat
  outstanding : List Nat
deriving DecidableEq

/-- `requestAnimationFrame`: returns a fresh handle and registers it. -/
def requestFrame (w : FrameWorld) : Nat × FrameWorld :=
  (w.nextId, { nextId := w.nextId + 1, outstanding := w.outstanding ++ [w.nextId] })

/-- `cancelAnimationFrame`: withdraws the request with handle `i`. -/
def cancelFrame (i : Nat) (w : FrameWorld) : FrameWorld :=
  { w with outstanding := w.outstanding.filter (fun x => x != i) }

/-- The `tick` property of the application: `undefined` before `init`,
the `makeTick` closure after `init` (line 591), `null` after `destroy`
(line 1942). -/
inductive TickField
  | unset
  | assigned
  | cleared
deriving DecidableEq

/-- The application state: the `AppBase` fields read or written by the code
under verification, with the source field names. `debugAssertsFailed` counts
failed `Debug.assert` checks (core/debug.js is not under src/; modelled as a
counter of failed debug-build assertions) and `destroyRuns` counts executions
of the full teardown sequence. -/
structure AppState where
  graphicsDevice : Option GfxDevice := none
  _inFrameUpdate : Bool := false
  _destroyRequested : Bool := false
  _librariesLoaded : Bool := false
  _alreadyStarted : Bool := false
  _time : ℚ := 0
  timeScale : ℚ := 1
  maxDeltaTime : ℚ := 1/10
  frame : Nat := 0
  autoRender : Bool := true
  renderNextFrame : Bool := false
  frameRequestId : Option Nat := none
  tickField : TickField := TickField.unset
  hasController : Bool := false
  hasMouse : Bool := false
  hasKeyboard : Bool := false
  hasGamepads : Bool := false
  debugAssertsFailed : Nat := 0
  destroyRuns : Nat := 0
deriving DecidableEq

/-- Observable events of one tick invocation. -/
inductive TickEv
  | cancelFrameReq (i : Nat)
  | scheduleFrameReq (i : Nat)
  | frameupdate
  | updatePhase
  | framerender
  | renderPhase
  | frameend
  | destroyRecorded
  | destroyExecuted
deriving DecidableEq

/-- `AppBase.cancelTick` (app-base.js lines 1960-1965). -/
def cancelTick (s : AppState) (w : FrameWorld) : AppState × FrameWorld :=
  match s.frameRequestId with
  | some i => ({ s with frameRequestId := none }, cancelFrame i w)
  | none => (s, w)

/-- `AppBase.destroy` (app-base.js lines 1822-1958): while a frame update is in
flight it only records the request and returns (lines 1823-1826); otherwise it
performs the full teardown — detaches the input devices, releases the owned
subsystems, clears the graphics device and the tick closure (lines 1828-1942) —
and finally cancels any outstanding frame request via `AppBase.cancelTick`
(line 1957). -/
def destroy (s : AppState) (w : FrameWorld) : AppState × FrameWorld × List TickEv :=
  if s._inFrameUpdate then
    ({ s with _destroyRequested := true }, w, [TickEv.destroyRecorded])
  else
    let s := { s with
      hasController := false, hasMouse := false, hasKeyboard := false,
      hasGamepads := false, graphicsDevice := none,
      tickField := TickField.cleared, destroyRuns := s.destroyRuns + 1 }
    let r := cancelTick s w
    (r.1, r.2, [TickEv.destroyExecuted])

/-- The tick closure produced by `makeTick` (app-base.js lines 1994-2083) for a
non-XR application in a browser environment. `timestamp` is the rAF timestamp,
`nowVal` the wall clock, and `scriptsCallDestroy` models user callbacks run
during the update phase invoking `AppBase.destroy`. Returns the new application
state, the frame-request world and the event trace of the invocation. -/
def tick (timestamp : Option ℚ) (nowVal : ℚ) (scriptsCallDestroy : Bool)
    (s : AppState) (w : FrameWorld) : AppState × FrameWorld × List TickEv :=
  match s.graphicsDevice with
  | none => (s, w, [])    -- lines 2001-2003: no graphics device, return
  | some gd =>
    -- lines 2006-2010: cancel any hanging frame request
    let c :=
      match s.frameRequestId with
      | some i => ({ s with frameRequestId := none }, cancelFrame i w,
                   [TickEv.cancelFrameReq i])
      | none => (s, w, ([] : List TickEv))
    let s := c.1
    let w := c.2.1
    let tr := c.2.2
    -- line 2012
    let s := { s with _inFrameUpdate := true }
    -- lines 2019-2025
    let r := computeDt s._time timestamp nowVal s.maxDeltaTime s.timeScale
    let s := { s with _time := r.2 }
    -- lines 2027-2032: queue up the next animation frame immediately
    let rq := requestFrame w
    let w := rq.2
    let s := { s with frameRequestId := some rq.1 }
    let tr := tr ++ [TickEv.scheduleFrameReq rq.1]
    if gd.contextLost then
      (s, w, tr)          -- lines 2034-2036: early return, flag not reset
    else
      let tr := tr ++ [TickEv.frameupdate]          -- line 2044
      let s := { s with frame := s.frame + 1 }      -- AppBase.update, line 1014
      let tr := tr ++ [TickEv.updatePhase]          -- line 2060
      let d1 :=
        if scriptsCallDestroy then
          let d := destroy s w
          (d.1, d.2.1, tr ++ d.2.2)
        else (s, w, tr)
      let s := d1.1
      let w := d1.2.1
      let tr := d1.2.2
      let tr := tr ++ [TickEv.framerender]          -- line 2062
      let rr :=
        if s.autoRender || s.renderNextFrame then   -- lines 2064-2072
          ({ s with renderNextFrame := false }, tr ++ [TickEv.renderPhase])
        else (s, tr)
      let s := rr.1
      let tr := rr.2
      let tr := tr ++ [TickEv.frameend]             -- line 2074
      let s := { s with _inFrameUpdate := false }   -- line 2077
      if s._destroyRequested then                   -- lines 2079-2081
        let d := destroy s w
        (d.1, d.2.1, tr ++ d.2.2)
      else (s, w, tr)

/-- JS runtime failure surfaced by the lifecycle operations: the source defines
no lifecycle error values, so the only failure mode is a TypeError from calling
an undefined member. -/
inductive JsError
  | typeError (msg : String)
deriving DecidableEq

/-- `AppBase.init` (app-base.js lines 481-592): stores the graphics device,
creates the subsystems, stores the input devices, and assigns the tick closure
(line 591). It contains no already-initialized check. -/
def init (hasController hasMouse hasKeyboard hasGamepads : Bool) (gd : GfxDevice)
    (s : AppState) : AppState :=
  { s with graphicsDevice := some gd, hasController := hasController,
           hasMouse := hasMouse, hasKeyboard := hasKeyboard,
           hasGamepads := hasGamepads, tickField := TickField.assigned }

/-- `AppBase.start` (app-base.js lines 956-982): a debug-build assertion guards
double start (lines 958-961), `frame` is reset, the `start`, `initialize` and
`postinitialize` notifications fire, `onLibrariesLoaded` runs when needed, and
the first tick runs synchronously (line 981, `this.tick()`); before `init` has
assigned the tick closure that call is a TypeError. -/
def start (nowVal : ℚ) (s : AppState) (w : FrameWorld) :
    Except JsError (AppState × FrameWorld × List TickEv) :=
  let s := if s._alreadyStarted
           then { s with debugAssertsFailed := s.debugAssertsFailed + 1 }
           else s
  let s := { s with _alreadyStarted := true, frame := 0, _librariesLoaded := true }
  match s.tickField with
  | TickField.assigned => Except.ok (tick none nowVal false s w)
  | _ => Except.error (JsError.typeError "this.tick is not a function")

/-- At most one frame request is in flight, and it is the application's own
`frameRequestId`; handles already handed out are below `nextId`. -/
def singleFlight (s : AppState) (w : FrameWorld) : Prop :=
  match s.frameRequestId with
  | none => w.outstanding = []
  | some i => w.outstanding = [i] ∧ i < w.nextId

/-- Iterate the tick closure over a list of `(timestamp, wall clock)` inputs. -/
def ticks (frames : List (Option ℚ × ℚ)) (s : AppState) (w : FrameWorld) :
    AppState × FrameWorld :=
  match frames with
  | [] => (s, w)
  | (ts, nv) :: rest =>
    let r := tick ts nv false s w
    ticks rest r.1 r.2.1

/-! The material dependency resolver (`src/framework/handlers/material.js`). -/

/-- A texture value: either one of the deterministic built-in placeholder
textures, keyed by name, or a loaded texture resource. -/
inductive Texture
  | builtin (key : String)
  | tex (i : Nat)
deriving DecidableEq

/-- A provider-side asset: identifier, primary resolved resource, the resource
list (for cubemaps: the primary face set followed by the prefiltered mip
levels), and the load state. -/
structure Asset where
  id : Nat
  resource : Option Texture := none
  resources : List (Option Texture) := []
  loaded : Bool := false
deriving DecidableEq

/-- The composite resource (a `StandardMaterial`): its texture slots (`none`
models JS `null`), the prefiltered cubemap set, the environment atlas, and a
counter of `material.update()` invocations — the re-initialize hook fired when
a texture binding changes. -/
structure Material where
  slots : List (String × Option Texture) := []
  prefilteredCubemaps : List (Option Texture) := []
  envAtlas : Option Texture := none
  updateCount : Nat := 0
deriving DecidableEq

/-- Read slot `name` of the material (JS property read, `null` when never
assigned). -/
def getSlot (m : Material) (name : String) : Option Texture :=
  (m.slots.lookup name).getD none

/-- Write slot `name` of the material (JS property assignment). -/
def setSlot (m : Material) (name : String) (v : Option Texture) : Material :=
  { m with slots := (name, v) :: m.slots.filter (fun p => p.1 != name) }

/-- The composite's source data (`materialAsset.data`): slot name to asset
identifier, the `validated` flag, the addressing mode
(`mappingFormat === 'path'`), and the `prefilteredCubeMap128` field. -/
structure MatData where
  entries : List (String × Nat) := []
  validated : Bool := false
  pathMapping : Bool := false
  prefilteredCubeMap128 : Option Texture := none
deriving DecidableEq

/-- Which callback set an asset reference was wired with (material.js lines
222-227 for textures, 276-281 for cubemaps). -/
inductive RefKind
  | texture
  | cubemap
deriving DecidableEq

/-- Modelled from the spec: `AssetReference`
(framework/asset/asset-reference.js is not under src/) — a single named
dependency slot holding the identifier it is bound to and the wired
provider-event callbacks (spec section 3, ResourceReference: name, identifier
by id or by path, subscription). -/
structure AssetReference where
  name : String
  kind : RefKind
  id : Option Nat := none
  url : Option String := none
deriving DecidableEq

/-- The handler-side state for one composite: the material, its data, the
`_assetReferences` table, the asset identifiers passed to the provider's `load`
(`this._assets.load(...)` calls), and a counter of final re-initialization
passes (`this._parser` re-init invocations). -/
structure MatState where
  material : Material := {}
  data : MatData := {}
  refs : List (String × AssetReference) := []
  loadCalls : List Nat := []
  parserInitCount : Nat := 0
deriving DecidableEq

/-- `PLACEHOLDER_MAP` (material.js lines 13-40). -/
def PLACEHOLDER_MAP : List (String × String) :=
  [("aoMap", "white"), ("aoDetailMap", "white"), ("diffuseMap", "gray"),
   ("diffuseDetailMap", "gray"), ("specularMap", "gray"),
   ("specularityFactorMap", "white"), ("metalnessMap", "black"),
   ("glossMap", "gray"), ("sheenMap", "black"), ("sheenGlossMap", "gray"),
   ("clearCoatMap", "black"), ("clearCoatGlossMap", "gray"),
   ("clearCoatNormalMap", "normal"), ("refractionMap", "white"),
   ("emissiveMap", "gray"), ("normalMap", "normal"),
   ("normalDetailMap", "normal"), ("heightMap", "gray"), ("opacityMap", "gray"),
   ("sphereMap", "gray"), ("lightMap", "white"), ("thicknessMap", "black"),
   ("iridescenceMap", "black"), ("iridescenceThicknessMap", "black"),
   ("envAtlas", "black"), ("anisotropyMap", "black")]

/-- Modelled from the spec together with `getBuiltInTexture`
(platform/graphics/built-in-textures.js is not under src/): each key names one
deterministic, always-available built-in texture. -/
def getBuiltInTexture (key : String) : Texture := Texture.builtin key

/-- `MaterialHandler._getPlaceholderTexture` (material.js lines 130-134). -/
def getPlaceholderTexture (parameterName : String) : Texture :=
  getBuiltInTexture ((PLACEHOLDER_MAP.lookup parameterName).getD "missing")

/-- Modelled from the spec: `standardMaterialTextureParameters`
(scene/materials/standard-material-parameters.js is not under src/) — the fixed
schema of texture slot names (spec section 4.4); it coincides with the keys of
`PLACEHOLDER_MAP`. -/
def standardMaterialTextureParameters : List String := PLACEHOLDER_MAP.map Prod.fst

/-- Modelled from the spec: `standardMaterialCubemapParameters`
(scene/materials/standard-material-parameters.js is not under src/) — the fixed
schema of cubemap slot names. -/
def standardMaterialCubemapParameters : List String := ["cubeMap"]

/-- `MaterialHandler._assignTexture` (material.js lines 124-127). -/
def _assignTexture (parameterName : String) (texture : Option Texture)
    (s : MatState) : MatState :=
  { s with material := setSlot s.material parameterName texture }

/-- `MaterialHandler._assignPlaceholderTexture` (material.js lines 137-140). -/
def _assignPlaceholderTexture (parameterName : String) (s : MatState) : MatState :=
  { s with material :=
      setSlot s.material parameterName (some (getPlaceholderTexture parameterName)) }

/-- `materialAsset.resource.update()`: the material's re-initialize hook for
texture-binding changes. -/
def materialUpdate (s : MatState) : MatState :=
  { s with material := { s.material with updateCount := s.material.updateCount + 1 } }

/-- `MaterialHandler._onTextureLoad` (material.js lines 142-145). -/
def _onTextureLoad (parameterName : String) (textureAsset : Asset)
    (s : MatState) : MatState :=
  materialUpdate (_assignTexture parameterName textureAsset.resource s)

/-- `MaterialHandler._onTextureAdd` (material.js lines 147-149): request the
provider to load the now-present asset. -/
def _onTextureAdd (parameterName : String) (textureAsset : Asset)
    (s : MatState) : MatState :=
  { s with loadCalls := s.loadCalls ++ [textureAsset.id] }

/-- `MaterialHandler._onTextureRemoveOrUnload` (material.js lines 151-159):
revert the slot to its placeholder only when it is bound exactly to the removed
asset's resource. -/
def _onTextureRemoveOrUnload (parameterName : String) (textureAsset : Asset)
    (s : MatState) : MatState :=
  if getSlot s.material parameterName = textureAsset.resource then
    materialUpdate (_assignPlaceholderTexture parameterName s)
  else s

/-- `MaterialHandler._assignCubemap` (material.js lines 161-174): the slot gets
the primary cubemap `textures[0]`; for the `cubeMap` slot the prefiltered set
is assigned only when every member is present, otherwise only the first
prefiltered level goes to `envAtlas`. -/
def _assignCubemap (parameterName : String) (textures : List (Option Texture))
    (s : MatState) : MatState :=
  let s := { s with material := setSlot s.material parameterName (textures.getD 0 none) }
  if parameterName = "cubeMap" then
    let prefiltered := textures.drop 1
    if prefiltered.all Option.isSome then
      { s with material := { s.material with prefilteredCubemaps := prefiltered } }
    else if (prefiltered.getD 0 none).isSome then
      { s with material := { s.material with envAtlas := prefiltered.getD 0 none } }
    else s
  else s

/-- Modelled from the spec together with the json material parser
(framework/parsers/material/json-standard-material.js is not under src/): the
final re-initialization pass over the composite (spec section 4.4 step 7),
which also validates the data. -/
def parserReinit (s : MatState) : MatState :=
  { s with parserInitCount := s.parserInitCount + 1,
           data := { s.data with validated := true } }

/-- `MaterialHandler._onCubemapLoad` (material.js lines 176-179). -/
def _onCubemapLoad (parameterName : String) (cubemapAsset : Asset)
    (s : MatState) : MatState :=
  parserReinit (_assignCubemap parameterName cubemapAsset.resources s)

/-- `MaterialHandler._onCubemapAdd` (material.js lines 181-183). -/
def _onCubemapAdd (parameterName : String) (cubemapAsset : Asset)
    (s : MatState) : MatState :=
  { s with loadCalls := s.loadCalls ++ [cubemapAsset.id] }

/-- `MaterialHandler._onCubemapRemoveOrUnload` (material.js lines 185-192): the
guard compares the asset data's `prefilteredCubeMap128` field with the
cubemap's second resource — not the slot's bound value — and on a match clears
the cubemap (all seven entries null) rather than assigning a placeholder. -/
def _onCubemapRemoveOrUnload (parameterName : String) (cubemapAsset : Asset)
    (s : MatState) : MatState :=
  if s.data.prefilteredCubeMap128 = cubemapAsset.resources.getD 1 none then
    materialUpdate (_assignCubemap parameterName (List.replicate 7 none) s)
  else s

/-- Look up the asset a reference is bound to in the provider's registry
(id addressing mode). -/
def findAsset (assets : List Asset) (r : AssetReference) : Option Asset :=
  match r.id with
  | some i => assets.find? (fun a => a.id == i)
  | none => none

/-- Store a reference in the `_assetReferences` table. -/
def setRef (refs : List (String × AssetReference)) (name : String)
    (r : AssetReference) : List (String × AssetReference) :=
  (name, r) :: refs.filter (fun p => p.1 != name)

/-- One texture-parameter iteration of `MaterialHandler._bindAndAssignAssets`
(material.js lines 206-262): when the data names an asset and the slot holds
nothing, or the data is not validated, or the slot holds its placeholder, the
reference is created (wired with the texture callbacks) and its identifier set;
if the referenced asset is present it is assigned (or the placeholder while its
resource is pending) and the provider is asked to load it. Otherwise an
existing reference has its identifier cleared. -/
def bindTextureSlot (assets : List Asset) (s : MatState) (name : String) : MatState :=
  let assetReference := s.refs.lookup name
  let dataAssetId := s.data.entries.lookup name
  let materialTexture := getSlot s.material name
  let isPlaceHolderTexture := materialTexture = some (getPlaceholderTexture name)
  if dataAssetId.isSome ∧
      (materialTexture = none ∨ s.data.validated = false ∨ isPlaceHolderTexture) then
    let r := assetReference.getD { name := name, kind := RefKind.texture }
    let r := if s.data.pathMapping
             then { r with url := dataAssetId.map toString }
             else { r with id := dataAssetId }
    let s := { s with refs := setRef s.refs name r }
    match findAsset assets r with
    | some a =>
      let s := if a.resource.isSome
               then _assignTexture name a.resource s
               else _assignPlaceholderTexture name s
      { s with loadCalls := s.loadCalls ++ [a.id] }
    | none => s
  else
    match assetReference with
    | some r0 =>
      let r := if s.data.pathMapping then { r0 with url := none }
               else { r0 with id := none }
      { s with refs := setRef s.refs name r }
    | none => s

/-- One cubemap-parameter iteration of `MaterialHandler._bindAndAssignAssets`
(material.js lines 267-303): processed only when the data names an asset and
`data.prefilteredCubeMap128` is not set; the asset is assigned only when
already loaded, and the provider is asked to load it. -/
def bindCubemapSlot (assets : List Asset) (s : MatState) (name : String) : MatState :=
  let assetReference := s.refs.lookup name
  let dataAssetId := s.data.entries.lookup name
  if dataAssetId.isSome ∧ s.data.prefilteredCubeMap128 = none then
    let r := assetReference.getD { name := name, kind := RefKind.cubemap }
    let r := if s.data.pathMapping
             then { r with url := dataAssetId.map toString }
             else { r with id := dataAssetId }
    let s := { s with refs := setRef s.refs name r }
    match findAsset assets r with
    | some a =>
      let s := if a.loaded then _assignCubemap name a.resources s else s
      { s with loadCalls := s.loadCalls ++ [a.id] }
    | none => s
  else s

/-- `MaterialHandler._bindAndAssignAssets` (material.js lines 194-307): migrate
the data (identity for already-current data; the parser is not under src/),
process every texture slot, then every cubemap slot, then run the final
re-initialization pass (line 306). This is the resolver's `resolve`. -/
def _bindAndAssignAssets (assets : List Asset) (s : MatState) : MatState :=
  let s := standardMaterialTextureParameters.foldl (bindTextureSlot assets) s
  let s := standardMaterialCubemapParameters.foldl (bindCubemapSlot assets) s
  parserReinit s

/-- The provider's event stream kinds (spec section 6). -/
inductive ProviderEv
  | load
  | add
  | remove
  | unload
deriving DecidableEq

/-- Dispatch one provider event to the callback set a reference was wired with
(material.js lines 222-227 and 276-281). -/
def dispatchEv (ev : ProviderEv) (kind : RefKind) (name : String) (a : Asset)
    (s : MatState) : MatState :=
  match kind, ev with
  | RefKind.texture, ProviderEv.load => _onTextureLoad name a s
  | RefKind.texture, ProviderEv.add => _onTextureAdd name a s
  | RefKind.texture, ProviderEv.remove => _onTextureRemoveOrUnload name a s
  | RefKind.texture, ProviderEv.unload => _onTextureRemoveOrUnload name a s
  | RefKind.cubemap, ProviderEv.load => _onCubemapLoad name a s
  | RefKind.cubemap, ProviderEv.add => _onCubemapAdd name a s
  | RefKind.cubemap, ProviderEv.remove => _onCubemapRemoveOrUnload name a s
  | RefKind.cubemap, ProviderEv.unload => _onCubemapRemoveOrUnload name a s

/-- Modelled from the spec: the provider event stream (spec section 6) is keyed
by identifier — firing an event for asset `a` invokes the wired callback of
every reference bound to `a`'s identifier. -/
def fireEvent (ev : ProviderEv) (a : Asset) (s : MatState) : MatState :=
  s.refs.foldl
    (fun acc p => if p.2.id = some a.id then dispatchEv ev p.2.kind p.1 a acc else acc)
    s

/-- A composite whose `diffuseMap` slot names asset `n`. -/
def diffuseData (n : Nat) : MatState :=
  { data := { entries := [("diffuseMap", n)] } }

/-- Asset `n`, registered with the provider but not yet loaded. -/
def pendingAsset (n : Nat) : Asset := { id := n }

/-- Asset `n` once its texture `t` has loaded. -/
def loadedAsset (n : Nat) (t : Texture) : Asset :=
  { id := n, resource := some t, loaded := true }

/-- The composite after `resolve()` while asset `n` is still pending. -/
def afterResolve (n : Nat) : MatState :=
  _bindAndAssignAssets [pendingAsset n] (diffuseData n)

/-- The composite after the provider then fires the load event for asset `n`
with resolved texture `t`. -/
def afterLoadEvent (n : Nat) (t : Texture) : MatState :=
  fireEvent ProviderEv.load (loadedAsset n t) (afterResolve n)

/-- The composite after a second `resolve()` with unchanged data. -/
def afterResolveTwice (n : Nat) : MatState :=
  _bindAndAssignAssets [pendingAsset n] (afterResolve n)

/-! Theorems. -/

/-- Clamping a nonpositive value into `[0, maxD]` gives `0`. -/
theorem clamp_of_nonpos (m maxD : ℚ) (h : m ≤ 0) (hmax : 0 ≤ maxD) :
    clamp m 0 maxD = 0 := by
  unfold clamp
  split_ifs with h1
  · linarith
  · rfl

/-- C3 counterexample: feeding the spec's sequence `[0, 16, 33, 5000]` (with
`maxDelta = 0.1`, `scale = 1`, and the wall clock reading `100` when the tick
with timestamp `0` arrives) yields the deltas `[0, 0, 0.017, 0.1]`, not the
claimed `[0, 0.016, 0.017, 0.1]`: the `0` timestamp is falsy, so the code uses
the wall clock instead, and the next delta `16 - 100` clamps to `0`. -/
theorem runClock_spec_sequence_cex :
    runClock 0 [(some 0, 100), (some 16, 100), (some 33, 100), (some 5000, 100)]
        (1/10) 1 = [0, 0, 17/1000, 1/10] ∧
    runClock 0 [(some 0, 100), (some 16, 100), (some 33, 100), (some 5000, 100)]
        (1/10) 1 ≠ [0, 16/1000, 17/1000, 1/10] := by
  constructor <;> norm_num [runClock, computeDt, clamp, jsOrOpt, jsOrQ]

/-- C3 amended: the per-frame delta always satisfies
`0 ≤ dt ≤ maxDeltaTime * timeScale` (for nonnegative `maxDeltaTime` and
`timeScale`); a truthy (nonzero) timestamp equal to or earlier than the stored
previous time yields `dt = 0`; for truthy timestamps `dt` is a deterministic
function of `(previous time, timestamp, timeScale, maxDeltaTime)` — a zero
timestamp instead falls back to the wall clock; and the strictly increasing
all-truthy sequence `[1, 17, 34, 5001]` with `maxDelta = 0.1`, `scale = 1`
yields the deltas `[0, 0.016, 0.017, 0.1]`. -/
theorem computeDt_clock_properties :
    (∀ (time : ℚ) (ts : Option ℚ) (nv maxD sc : ℚ), 0 ≤ maxD → 0 ≤ sc →
      0 ≤ (computeDt time ts nv maxD sc).1 ∧
      (computeDt time ts nv maxD sc).1 ≤ maxD * sc) ∧
    (∀ (time v nv maxD sc : ℚ), v ≠ 0 → v ≤ time → 0 ≤ maxD →
      (computeDt time (some v) nv maxD sc).1 = 0) ∧
    (∀ (time v nv nv2 maxD sc : ℚ), v ≠ 0 →
      computeDt time (some v) nv maxD sc = computeDt time (some v) nv2 maxD sc) ∧
    runClock 0 [(some 1, 999), (some 17, 999), (some 34, 999), (some 5001, 999)]
        (1/10) 1 = [0, 16/1000, 17/1000, 1/10] := by
  refine ⟨?_, ?_, ?_, by norm_num [runClock, computeDt, clamp, jsOrOpt, jsOrQ]⟩
  · intro time ts nv maxD sc hm hs
    simp only [computeDt, clamp]
    set m := (jsOrOpt ts nv - jsOrQ time (jsOrOpt ts nv)) / 1000 with hmdef
    split
    · exact ⟨mul_nonneg hm hs, le_rfl⟩
    · split
      · simpa using mul_nonneg hm hs
      · rename_i h1 h2
        push_neg at h1 h2
        exact ⟨mul_nonneg (le_of_lt h2) hs, mul_le_mul_of_nonneg_right (le_of_lt h1) hs⟩
  · intro time v nv maxD sc hv hle hm
    simp only [computeDt, jsOrOpt, jsOrQ, if_neg hv]
    have hms : (v - if time = 0 then v else time) / 1000 ≤ 0 := by
      split_ifs with ht
      · simp
      · apply div_nonpos_iff.mpr
        exact Or.inr ⟨by linarith, by norm_num⟩
    rw [clamp_of_nonpos _ _ hms hm, zero_mul]
  · intro time v nv nv2 maxD sc hv
    simp [computeDt, jsOrOpt, jsOrQ, if_neg hv]

/-- C3 amended witness: the bound and the dt-zero parts of
`computeDt_clock_properties` instantiated at concrete inputs. -/
theorem computeDt_clock_properties_witness :
    ((0:ℚ) ≤ 1/10 ∧ (0:ℚ) ≤ 1 ∧
      0 ≤ (computeDt 0 (some 16) 0 (1/10) 1).1 ∧
      (computeDt 0 (some 16) 0 (1/10) 1).1 ≤ (1/10) * 1) ∧
    ((16:ℚ) ≠ 0 ∧ (16:ℚ) ≤ 33 ∧ (computeDt 33 (some 16) 0 (1/10) 1).1 = 0) :=
  ⟨⟨by norm_num, by norm_num,
    (computeDt_clock_properties.1 0 (some 16) 0 (1/10) 1 (by norm_num) (by norm_num)).1,
    (computeDt_clock_properties.1 0 (some 16) 0 (1/10) 1 (by norm_num) (by norm_num)).2⟩,
   ⟨by norm_num, by norm_num,
    computeDt_clock_properties.2.1 33 16 0 (1/10) 1 (by norm_num) (by norm_num)
      (by norm_num)⟩⟩

/-- C10: a missing rAF timestamp, and equally a zero (falsy) one, makes the
tick use the wall clock `now()` as the frame's current time, while a nonzero
timestamp is used as given; and from the initial stored time `0` (app-base.js
line 190) the first delta is `0` for every timestamp, because
`_time || currentTime` makes the first elapsed interval zero. The last
conjunct states the fallback at the level of the tick closure: a tick with no
timestamp stores the wall clock as `_time`. -/
theorem tick_timestamp_fallback_first_dt_zero :
    (∀ (time nv maxD sc : ℚ),
      (computeDt time none nv maxD sc).2 = nv ∧
      (computeDt time (some 0) nv maxD sc).2 = nv) ∧
    (∀ (v nv maxD sc : ℚ), v ≠ 0 → (computeDt 0 (some v) nv maxD sc).2 = v) ∧
    (∀ (ts : Option ℚ) (nv maxD sc : ℚ), 0 ≤ maxD →
      (computeDt 0 ts nv maxD sc).1 = 0) ∧
    (∀ (s : AppState) (w : FrameWorld) (gd : GfxDevice) (nv : ℚ),
      s.graphicsDevice = some gd → (tick none nv false s w).1._time = nv) := by
  refine ⟨?_, ?_, ?_, ?_⟩
  · intro time nv maxD sc
    constructor <;> simp [computeDt, jsOrOpt, jsOrQ]
  · intro v nv maxD sc hv
    simp [computeDt, jsOrOpt, jsOrQ, if_neg hv]
  · intro ts nv maxD sc hm
    have hz : (jsOrOpt ts nv - jsOrQ 0 (jsOrOpt ts nv)) / 1000 = 0 := by
      simp [jsOrQ]
    simp only [computeDt, hz, clamp_of_nonpos 0 maxD le_rfl hm, zero_mul]
  · intro s w gd nv hgd
    obtain ⟨lost⟩ := gd
    rcases hfr : s.frameRequestId with _ | i <;> cases lost <;>
      rcases hdr : s._destroyRequested with _ | _ <;>
        rcases har : s.autoRender with _ | _ <;>
          rcases hrn : s.renderNextFrame with _ | _ <;>
            simp [tick, destroy, cancelTick, computeDt, jsOrOpt, jsOrQ, cancelFrame,
              requestFrame, hgd, hfr, hdr, har, hrn]

/-- C10 witness: `tick_timestamp_fallback_first_dt_zero` applied at concrete
inputs for its hypothesis-bearing conjuncts. -/
theorem tick_timestamp_fallback_first_dt_zero_witness :
    ((5:ℚ) ≠ 0 ∧ (computeDt 0 (some 5) 77 (1/10) 1).2 = 5) ∧
    ((0:ℚ) ≤ 1/10 ∧ (computeDt 0 (some 5) 77 (1/10) 1).1 = 0) ∧
    (({ graphicsDevice := some ⟨false⟩ } : AppState).graphicsDevice = some ⟨false⟩ ∧
      (tick none 77 false { graphicsDevice := some ⟨false⟩ } ⟨0, []⟩).1._time = 77) :=
  ⟨⟨by norm_num, tick_timestamp_fallback_first_dt_zero.2.1 5 77 (1/10) 1 (by norm_num)⟩,
   ⟨by norm_num, tick_timestamp_fallback_first_dt_zero.2.2.1 (some 5) 77 (1/10) 1
      (by norm_num)⟩,
   ⟨rfl, tick_timestamp_fallback_first_dt_zero.2.2.2
      { graphicsDevice := some ⟨false⟩ } ⟨0, []⟩ ⟨false⟩ 77 rfl⟩⟩

/-- C1: a `destroy()` call made while a tick is executing (`_inFrameUpdate`
set) only records the request and returns, tearing nothing down (first
conjunct); and when a callback run during the update phase of a tick requests
destroy, the full destroy sequence executes exactly once, as the final event of
that tick invocation — after every frame phase, never re-entrantly within them
(second conjunct: teardown count rises by one, the trace holds exactly one
`destroyExecuted`, it is the last event, and the in-frame request was recorded
exactly once). -/
theorem destroy_in_frame_deferred_once :
    (∀ (s : AppState) (w : FrameWorld), s._inFrameUpdate = true →
      destroy s w =
        ({ s with _destroyRequested := true }, w, [TickEv.destroyRecorded])) ∧
    (∀ (s : AppState) (w : FrameWorld) (ts : Option ℚ) (nv : ℚ) (gd : GfxDevice),
      s.graphicsDevice = some gd → gd.contextLost = false →
      s._destroyRequested = false →
      (tick ts nv true s w).1.destroyRuns = s.destroyRuns + 1 ∧
      (tick ts nv true s w).2.2.count TickEv.destroyExecuted = 1 ∧
      (tick ts nv true s w).2.2.getLast? = some TickEv.destroyExecuted ∧
      (tick ts nv true s w).2.2.count TickEv.destroyRecorded = 1) := by
  constructor
  · intro s w h
    simp [destroy, h]
  · intro s w ts nv gd hgd hlost hdr0
    obtain ⟨lost⟩ := gd
    cases lost
    case true => exact absurd hlost (by simp)
    case false =>
    rcases hfr : s.frameRequestId with _ | i <;>
      rcases har : s.autoRender with _ | _ <;>
        rcases hrn : s.renderNextFrame with _ | _ <;>
          simp [tick, destroy, cancelTick, computeDt, jsOrOpt, jsOrQ, cancelFrame,
            requestFrame, hgd, hfr, hdr0, har, hrn, List.count_cons, List.getLast?]

/-- C1 witness: `destroy_in_frame_deferred_once` applied to an in-frame state
and to a live application whose update-phase callback requests destroy. -/
theorem destroy_in_frame_deferred_once_witness :
    (({ _inFrameUpdate := true } : AppState)._inFrameUpdate = true ∧
      destroy { _inFrameUpdate := true } ⟨0, []⟩ =
        ({ ({ _inFrameUpdate := true } : AppState) with _destroyRequested := true },
          ⟨0, []⟩, [TickEv.destroyRecorded])) ∧
    (({ graphicsDevice := some ⟨false⟩ } : AppState).graphicsDevice = some ⟨false⟩ ∧
      (⟨false⟩ : GfxDevice).contextLost = false ∧
      ({ graphicsDevice := some ⟨false⟩ } : AppState)._destroyRequested = false ∧
      (tick (some 16) 0 true { graphicsDevice := some ⟨false⟩ } ⟨0, []⟩).1.destroyRuns
        = ({ graphicsDevice := some ⟨false⟩ } : AppState).destroyRuns + 1) :=
  ⟨⟨rfl, destroy_in_frame_deferred_once.1 { _inFrameUpdate := true } ⟨0, []⟩ rfl⟩,
   ⟨rfl, rfl, rfl,
    (destroy_in_frame_deferred_once.2 { graphicsDevice := some ⟨false⟩ } ⟨0, []⟩
      (some 16) 0 ⟨false⟩ rfl rfl rfl).1⟩⟩

/-- C2 counterexample: a tick on an application whose render backend reports a
lost context returns with `_inFrameUpdate` still `true`: the early return at
app-base.js line 2035 skips the flag reset (line 2077) and the deferred-destroy
check (lines 2079-2081), contradicting the claim that every frame-starting tick
invocation ends with the flag reset and the deferred destroy performed. -/
theorem tick_contextLost_flag_not_reset_cex :
    (tick (some 16) 100 false { graphicsDevice := some ⟨true⟩ } ⟨0, []⟩).1._inFrameUpdate
      = true := rfl

/-- C2 amended: when the context is not lost, a tick that starts a frame resets
`_inFrameUpdate` to `false` before returning and performs a destroy requested
before or during the invocation exactly once; when the render backend reports a
lost context, the tick still schedules the next frame request but returns right
after, leaving `_inFrameUpdate` set and not running any deferred destroy — the
flag reset and the deferred destroy wait for a later tick that completes
normally. -/
theorem tick_flag_reset_and_deferred_destroy :
    (∀ (s : AppState) (w : FrameWorld) (ts : Option ℚ) (nv : ℚ) (cb : Bool)
        (gd : GfxDevice),
      s.graphicsDevice = some gd → gd.contextLost = false →
      (tick ts nv cb s w).1._inFrameUpdate = false ∧
      ((cb = true ∨ s._destroyRequested = true) →
        (tick ts nv cb s w).1.destroyRuns = s.destroyRuns + 1)) ∧
    (∀ (s : AppState) (w : FrameWorld) (ts : Option ℚ) (nv : ℚ) (cb : Bool)
        (gd : GfxDevice),
      s.graphicsDevice = some gd → gd.contextLost = true →
      (tick ts nv cb s w).1._inFrameUpdate = true ∧
      (tick ts nv cb s w).1.destroyRuns = s.destroyRuns ∧
      (tick ts nv cb s w).1.frameRequestId.isSome = true) := by
  constructor
  · intro s w ts nv cb gd hgd hlost
    obtain ⟨lost⟩ := gd
    cases lost
    case true => exact absurd hlost (by simp)
    case false =>
    rcases hfr : s.frameRequestId with _ | i <;> cases cb <;>
      rcases hdr : s._destroyRequested with _ | _ <;>
        rcases har : s.autoRender with _ | _ <;>
          rcases hrn : s.renderNextFrame with _ | _ <;>
            simp [tick, destroy, cancelTick, computeDt, jsOrOpt, jsOrQ,
              cancelFrame, requestFrame, hgd, hfr, hdr, har, hrn]
  · intro s w ts nv cb gd hgd hlost
    obtain ⟨lost⟩ := gd
    cases lost
    case false => exact absurd hlost (by simp)
    case true =>
    rcases hfr : s.frameRequestId with _ | i <;>
      simp [tick, destroy, cancelTick, computeDt, jsOrOpt, jsOrQ, cancelFrame,
        requestFrame, hgd, hfr]

/-- C2 amended witness: `tick_flag_reset_and_deferred_destroy` applied to a
live application with a healthy context and a destroy-requesting callback, and
to one with a lost context. -/
theorem tick_flag_reset_and_deferred_destroy_witness :
    (({ graphicsDevice := some ⟨false⟩ } : AppState).graphicsDevice = some ⟨false⟩ ∧
      (⟨false⟩ : GfxDevice).contextLost = false ∧
      (tick none 7 true { graphicsDevice := some ⟨false⟩ } ⟨0, []⟩).1._inFrameUpdate
        = false) ∧
    (({ graphicsDevice := some ⟨true⟩ } : AppState).graphicsDevice = some ⟨true⟩ ∧
      (⟨true⟩ : GfxDevice).contextLost = true ∧
      (tick none 7 true { graphicsDevice := some ⟨true⟩ } ⟨0, []⟩).1._inFrameUpdate
        = true) :=
  ⟨⟨rfl, rfl,
    (tick_flag_reset_and_deferred_destroy.1 { graphicsDevice := some ⟨false⟩ }
      ⟨0, []⟩ none 7 true ⟨false⟩ rfl rfl).1⟩,
   ⟨rfl, rfl,
    (tick_flag_reset_and_deferred_destroy.2 { graphicsDevice := some ⟨true⟩ }
      ⟨0, []⟩ none 7 true ⟨true⟩ rfl rfl).1⟩⟩

/-- The tick closure never touches the debug-assertion failure counter. -/
theorem tick_debugAssertsFailed (ts : Option ℚ) (nv : ℚ) (cb : Bool)
    (s : AppState) (w : FrameWorld) :
    (tick ts nv cb s w).1.debugAssertsFailed = s.debugAssertsFailed := by
  rcases hgd : s.graphicsDevice with _ | gd
  · simp [tick, hgd]
  · obtain ⟨lost⟩ := gd
    rcases hfr : s.frameRequestId with _ | i <;> cases lost <;> cases cb <;>
      rcases hdr : s._destroyRequested with _ | _ <;>
        rcases har : s.autoRender with _ | _ <;>
          rcases hrn : s.renderNextFrame with _ | _ <;>
            simp [tick, destroy, cancelTick, computeDt, jsOrOpt, jsOrQ,
              cancelFrame, requestFrame, hgd, hfr, hdr, har, hrn]

/-- C4 counterexample: calling `init` twice completes normally — `AppBase.init`
contains no already-initialized check, so no `AlreadyInitialized` failure
occurs and the second call just re-initializes; and calling `start()` before
`init()` fails with a generic TypeError from the still-unset tick closure
(line 981), after the lifecycle notifications already fired — there is no
`NotInitialized` error. -/
theorem lifecycle_named_errors_cex :
    (init false false false false ⟨false⟩
        (init false false false false ⟨false⟩ {})).debugAssertsFailed = 0 ∧
    (init false false false false ⟨false⟩
        (init false false false false ⟨false⟩ {})).tickField = TickField.assigned ∧
    start 0 {} ⟨0, []⟩ =
      Except.error (JsError.typeError "this.tick is not a function") :=
  ⟨rfl, rfl, rfl⟩

/-- C4 amended: after `destroy()` completes, any further tick invocation is a
no-op (the graphics device is cleared, so the closure returns immediately);
double `init` is not detected — it records no failure; double `start` is
flagged only by a debug-build assertion (the recorded failure count rises by
one) and otherwise runs; and `start` before `init` fails with a TypeError from
the unset tick closure rather than a `NotInitialized` error. -/
theorem lifecycle_ordering_actual :
    (∀ (s : AppState) (w : FrameWorld) (ts : Option ℚ) (nv : ℚ) (cb : Bool),
      s.graphicsDevice = none → tick ts nv cb s w = (s, w, [])) ∧
    (∀ (s : AppState) (w : FrameWorld), s._inFrameUpdate = false →
      (destroy s w).1.graphicsDevice = none ∧
      (destroy s w).1.tickField = TickField.cleared) ∧
    (∀ (c m k g c2 m2 k2 g2 : Bool) (gd gd2 : GfxDevice) (s : AppState),
      (init c2 m2 k2 g2 gd2 (init c m k g gd s)).debugAssertsFailed
        = s.debugAssertsFailed) ∧
    (∀ (s : AppState) (w : FrameWorld) (nv : ℚ),
      s._alreadyStarted = true → s.tickField = TickField.assigned →
      match start nv s w with
      | Except.ok r => r.1.debugAssertsFailed = s.debugAssertsFailed + 1
      | Except.error _ => False) ∧
    (∀ (s : AppState) (w : FrameWorld) (nv : ℚ), s.tickField = TickField.unset →
      start nv s w = Except.error (JsError.typeError "this.tick is not a function")) := by
  refine ⟨?_, ?_, ?_, ?_, ?_⟩
  · intro s w ts nv cb hgd
    simp [tick, hgd]
  · intro s w h
    rcases hfr : s.frameRequestId with _ | i <;>
      simp [destroy, cancelTick, h, hfr]
  · intro c m k g c2 m2 k2 g2 gd gd2 s
    simp [init]
  · intro s w nv hstart htf
    simp only [start, hstart, if_true, htf]
    rw [tick_debugAssertsFailed]
  · intro s w nv htf
    rcases hstart : s._alreadyStarted with _ | _ <;> simp [start, hstart, htf]

/-- C4 amended witness: `lifecycle_ordering_actual` applied to a destroyed
application (tick is a no-op) and to an uninitialized one (start raises the
TypeError). -/
theorem lifecycle_ordering_actual_witness :
    (({} : AppState).graphicsDevice = none ∧
      tick (some 3) 9 false {} ⟨0, []⟩ = ({}, ⟨0, []⟩, [])) ∧
    (({} : AppState).tickField = TickField.unset ∧
      start 9 {} ⟨0, []⟩ =
        Except.error (JsError.typeError "this.tick is not a function")) :=
  ⟨⟨rfl, lifecycle_ordering_actual.1 {} ⟨0, []⟩ (some 3) 9 false rfl⟩,
   ⟨rfl, lifecycle_ordering_actual.2.2.2.2 {} ⟨0, []⟩ 9 rfl⟩⟩

/-- One tick of a live, not-destroy-requested application preserves the
single-flight frame-request invariant and leaves exactly one outstanding
request. -/
theorem tick_singleFlight (ts : Option ℚ) (nv : ℚ) (s : AppState) (w : FrameWorld)
    (gd : GfxDevice) (hgd : s.graphicsDevice = some gd)
    (hdr : s._destroyRequested = false) (hsf : singleFlight s w) :
    (tick ts nv false s w).1.graphicsDevice = some gd ∧
    (tick ts nv false s w).1._destroyRequested = false ∧
    singleFlight (tick ts nv false s w).1 (tick ts nv false s w).2.1 ∧
    (tick ts nv false s w).2.1.outstanding.length = 1 := by
  obtain ⟨lost⟩ := gd
  rcases hfr : s.frameRequestId with _ | i <;>
    simp only [singleFlight, hfr] at hsf <;> cases lost <;>
      rcases har : s.autoRender with _ | _ <;>
        rcases hrn : s.renderNextFrame with _ | _ <;>
          simp [tick, destroy, cancelTick, computeDt, jsOrOpt, jsOrQ, cancelFrame,
            requestFrame, singleFlight, hgd, hfr, hdr, har, hrn, hsf]

/-- C6: starting from a live application holding the single outstanding frame
request (or none yet), every sequence of consecutive ticks preserves the
single-flight property — each tick cancels the previously scheduled request and
schedules exactly one new one (also on a lost-context tick, since the device's
context-lost flag is unconstrained here), so after every tick exactly one
non-canceled frame request is outstanding; and a destroy outside a frame
update cancels the outstanding request, leaving none. -/
theorem frame_request_single_flight :
    (∀ (frames : List (Option ℚ × ℚ)) (s : AppState) (w : FrameWorld)
        (gd : GfxDevice),
      s.graphicsDevice = some gd → s._destroyRequested = false →
      singleFlight s w →
      singleFlight (ticks frames s w).1 (ticks frames s w).2 ∧
      (frames ≠ [] → (ticks frames s w).2.outstanding.length = 1)) ∧
    (∀ (s : AppState) (w : FrameWorld), singleFlight s w →
      s._inFrameUpdate = false → (destroy s w).2.1.outstanding = []) := by
  constructor
  · intro frames
    induction frames with
    | nil =>
      intro s w gd hgd hdr hsf
      exact ⟨hsf, fun h => absurd rfl h⟩
    | cons f rest ih =>
      intro s w gd hgd hdr hsf
      obtain ⟨f1, f2⟩ := f
      have h1 := tick_singleFlight f1 f2 s w gd hgd hdr hsf
      have h2 := ih (tick f1 f2 false s w).1 (tick f1 f2 false s w).2.1 gd
        h1.1 h1.2.1 h1.2.2.1
      constructor
      · simpa [ticks] using h2.1
      · intro _
        cases rest with
        | nil => simpa [ticks] using h1.2.2.2
        | cons g gs => simpa [ticks] using h2.2 (by simp)
  · intro s w hsf hinf
    rcases hfr : s.frameRequestId with _ | i <;>
      simp only [singleFlight, hfr] at hsf <;>
        simp [destroy, cancelTick, hinf, hfr, cancelFrame, hsf]

/-- C6 witness: `frame_request_single_flight` applied to a freshly initialized
application with no request outstanding, over two consecutive ticks, and the
destroy conjunct applied after one tick. -/
theorem frame_request_single_flight_witness :
    (({ graphicsDevice := some ⟨false⟩ } : AppState).graphicsDevice = some ⟨false⟩ ∧
      ({ graphicsDevice := some ⟨false⟩ } : AppState)._destroyRequested = false ∧
      singleFlight { graphicsDevice := some ⟨false⟩ } ⟨0, []⟩ ∧
      ([(some 16, 0), (some 33, 0)] : List (Option ℚ × ℚ)) ≠ [] ∧
      (ticks [(some 16, 0), (some 33, 0)]
        { graphicsDevice := some ⟨false⟩ } ⟨0, []⟩).2.outstanding.length = 1) ∧
    (singleFlight { frameRequestId := some 4 } ⟨5, [4]⟩ ∧
      ({ frameRequestId := some 4 } : AppState)._inFrameUpdate = false ∧
      (destroy { frameRequestId := some 4 } ⟨5, [4]⟩).2.1.outstanding = []) :=
  ⟨⟨rfl, rfl, rfl, by simp,
    (frame_request_single_flight.1 [(some 16, 0), (some 33, 0)]
      { graphicsDevice := some ⟨false⟩ } ⟨0, []⟩ ⟨false⟩ rfl rfl rfl).2 (by simp)⟩,
   ⟨⟨rfl, by norm_num⟩, rfl,
    frame_request_single_flight.2 { frameRequestId := some 4 } ⟨5, [4]⟩
      ⟨rfl, by norm_num⟩ rfl⟩⟩

/-- C5 counterexample: with every input device attached, the simulation update
runs before the mouse input snapshot in `AppBase.update`, so the claimed
input-before-simulation sub-phase order is false on a non-skipped frame. -/
theorem updatePhases_input_first_cex :
    ¬ precedes UpdPhase.mouseUpdate UpdPhase.simUpdate
        (updatePhases true true true true) := by
  decide

/-- C5 amended: in every non-skipped frame `AppBase.update` runs its sub-phases
in the fixed order simulation/component update, then animation update, then
post-update, then the application update event, and the input-device updates
run last — after post-update — so simulation reads the previous frame's input
snapshot. -/
theorem updatePhases_actual_order :
    ∀ (c m k g : Bool),
      precedes UpdPhase.simUpdate UpdPhase.animationUpdate (updatePhases c m k g) ∧
      precedes UpdPhase.animationUpdate UpdPhase.postUpdate (updatePhases c m k g) ∧
      precedes UpdPhase.postUpdate UpdPhase.fireUpdateEvent (updatePhases c m k g) ∧
      (∀ p ∈ inputUpdate c m k g,
        precedes UpdPhase.fireUpdateEvent p (updatePhases c m k g)) := by
  intro c m k g
  cases c <;> cases m <;> cases k <;> cases g <;> refine ⟨by decide, by decide, by decide, ?_⟩ <;>
    intro p hp <;> fin_cases hp <;> decide

/-- C5 amended witness: the order facts at the all-devices configuration,
applied to the mouse input phase. -/
theorem updatePhases_actual_order_witness :
    UpdPhase.mouseUpdate ∈ inputUpdate true true true true ∧
    precedes UpdPhase.fireUpdateEvent UpdPhase.mouseUpdate
      (updatePhases true true true true) :=
  ⟨by decide, (updatePhases_actual_order true true true true).2.2.2
      UpdPhase.mouseUpdate (by decide)⟩

/-- The state `afterResolve 10` computes to: the `diffuseMap` slot holds the
"gray" placeholder, one texture reference is bound to identifier `10`, one
provider load call was issued, and one re-initialization pass ran. -/
def resolvedState10 : MatState :=
  { material := { slots := [("diffuseMap", some (Texture.builtin "gray"))] },
    data := { entries := [("diffuseMap", 10)], validated := true },
    refs := [("diffuseMap",
      { name := "diffuseMap", kind := RefKind.texture, id := some 10 })],
    loadCalls := [10],
    parserInitCount := 1 }

set_option maxRecDepth 8000 in
/-- C7: resolving a composite whose `diffuseMap` slot names the registered but
not-yet-loaded asset `10` assigns the "gray" placeholder texture to the slot;
when the provider then fires the load event for that asset with any resolved
texture `t`, the slot holds `t` and the composite's re-initialize hook
(`material.update`) fires exactly once. -/
theorem placeholder_substitution :
    getSlot (afterResolve 10).material "diffuseMap" = some (Texture.builtin "gray") ∧
    (∀ t : Texture,
      getSlot (afterLoadEvent 10 t).material "diffuseMap" = some t ∧
      (afterLoadEvent 10 t).material.updateCount
        = (afterResolve 10).material.updateCount + 1) := by
  have h : afterResolve 10 = resolvedState10 := by decide
  constructor
  · rw [h]; rfl
  · intro t
    simp only [afterLoadEvent, h]
    simp [fireEvent, resolvedState10, dispatchEv, _onTextureLoad, _assignTexture,
      materialUpdate, loadedAsset, getSlot, setSlot, List.lookup]

set_option maxRecDepth 8000 in
/-- C8 counterexample: a `cubeMap` slot bound exactly to the resolved value of
cubemap asset `7` (its primary resource) is left completely unchanged by the
unload event for that very asset — no placeholder reversion and no
re-initialization mark — because `_onCubemapRemoveOrUnload` compares
`data.prefilteredCubeMap128` with the asset's second resource instead of the
slot's bound value. -/
theorem placeholder_reversion_cex :
    getSlot
      ({ material := { slots := [("cubeMap", some (Texture.tex 1))] },
         data := { entries := [("cubeMap", 7)] } } : MatState).material "cubeMap"
      = ({ id := 7, resource := some (Texture.tex 1),
           resources := [some (Texture.tex 1), some (Texture.tex 2)],
           loaded := true } : Asset).resource ∧
    _onCubemapRemoveOrUnload "cubeMap"
      { id := 7, resource := some (Texture.tex 1),
        resources := [some (Texture.tex 1), some (Texture.tex 2)], loaded := true }
      { material := { slots := [("cubeMap", some (Texture.tex 1))] },
        data := { entries := [("cubeMap", 7)] } }
      = { material := { slots := [("cubeMap", some (Texture.tex 1))] },
          data := { entries := [("cubeMap", 7)] } } := by
  constructor <;> decide

/-- Every reference with an identifier different from the event's asset skips
the dispatch, so the fold leaves the state unchanged. -/
theorem foldl_dispatch_skip (ev : ProviderEv) (a : Asset) :
    ∀ (l : List (String × AssetReference)) (acc : MatState),
      (∀ p ∈ l, p.2.id ≠ some a.id) →
      l.foldl
        (fun acc p =>
          if p.2.id = some a.id then dispatchEv ev p.2.kind p.1 a acc else acc)
        acc = acc := by
  intro l
  induction l with
  | nil => intro acc _; rfl
  | cons p ps ih =>
    intro acc h
    simp only [List.foldl_cons, if_neg (h p (by simp))]
    exact ih acc (fun q hq => h q (by simp [hq]))

/-- C8 amended: for texture slots the claim holds — an unload/remove event for
the asset whose resource is exactly the slot's bound value reverts the slot to
its placeholder and bumps the re-initialize hook, and an event for an asset
whose resource differs from the bound value leaves the state unchanged; an
event for an asset no reference is bound to is never dispatched at all. For
cubemap slots, however, the handler instead tests whether the composite data's
`prefilteredCubeMap128` equals the asset's second resource: when that test
fails the state is unchanged (even if the slot is bound to the removed
cubemap), and when it holds the cubemap is cleared to null entries — not
reverted to a placeholder. -/
theorem placeholder_reversion_actual :
    (∀ (s : MatState) (name : String) (a : Asset) (x : Texture),
      getSlot s.material name = some x → a.resource = some x →
      _onTextureRemoveOrUnload name a s =
        materialUpdate (_assignPlaceholderTexture name s)) ∧
    (∀ (s : MatState) (name : String) (a : Asset),
      getSlot s.material name ≠ a.resource →
      _onTextureRemoveOrUnload name a s = s) ∧
    (∀ (ev : ProviderEv) (a : Asset) (s : MatState),
      (∀ p ∈ s.refs, p.2.id ≠ some a.id) → fireEvent ev a s = s) ∧
    (∀ (s : MatState) (name : String) (a : Asset),
      s.data.prefilteredCubeMap128 ≠ a.resources.getD 1 none →
      _onCubemapRemoveOrUnload name a s = s) ∧
    (∀ (s : MatState) (name : String) (a : Asset),
      s.data.prefilteredCubeMap128 = a.resources.getD 1 none →
      _onCubemapRemoveOrUnload name a s =
        materialUpdate (_assignCubemap name (List.replicate 7 none) s)) := by
  refine ⟨?_, ?_, ?_, ?_, ?_⟩
  · intro s name a x h1 h2
    simp [_onTextureRemoveOrUnload, h1, h2]
  · intro s name a h
    simp [_onTextureRemoveOrUnload, if_neg h]
  · intro ev a s h
    exact foldl_dispatch_skip ev a s.refs s h
  · intro s name a h
    unfold _onCubemapRemoveOrUnload
    rw [if_neg h]
  · intro s name a h
    unfold _onCubemapRemoveOrUnload
    rw [if_pos h]

set_option maxRecDepth 8000 in
/-- C8 amended witness: `placeholder_reversion_actual` applied to a texture
slot bound to the unloading asset's resource, and to the cubemap configuration
whose guard fails. -/
theorem placeholder_reversion_actual_witness :
    (getSlot
        ({ material := { slots := [("diffuseMap", some (Texture.tex 5))] } }
          : MatState).material "diffuseMap" = some (Texture.tex 5) ∧
      ({ id := 3, resource := some (Texture.tex 5) } : Asset).resource
        = some (Texture.tex 5) ∧
      _onTextureRemoveOrUnload "diffuseMap"
        { id := 3, resource := some (Texture.tex 5) }
        { material := { slots := [("diffuseMap", some (Texture.tex 5))] } } =
        materialUpdate (_assignPlaceholderTexture "diffuseMap"
          { material := { slots := [("diffuseMap", some (Texture.tex 5))] } })) ∧
    (({ data := { entries := [("cubeMap", 7)] } } : MatState).data.prefilteredCubeMap128
        ≠ (({ id := 7, resources := [some (Texture.tex 1), some (Texture.tex 2)] }
            : Asset).resources.getD 1 none) ∧
      _onCubemapRemoveOrUnload "cubeMap"
        { id := 7, resources := [some (Texture.tex 1), some (Texture.tex 2)] }
        { data := { entries := [("cubeMap", 7)] } }
        = { data := { entries := [("cubeMap", 7)] } }) :=
  ⟨⟨rfl, rfl,
    placeholder_reversion_actual.1
      { material := { slots := [("diffuseMap", some (Texture.tex 5))] } }
      "diffuseMap" { id := 3, resource := some (Texture.tex 5) } (Texture.tex 5)
      (by decide) rfl⟩,
   ⟨by decide,
    placeholder_reversion_actual.2.2.2.1
      { data := { entries := [("cubeMap", 7)] } } "cubeMap"
      { id := 7, resources := [some (Texture.tex 1), some (Texture.tex 2)] }
      (by decide)⟩⟩

set_option maxRecDepth 8000 in
/-- C9 counterexample: a second `resolve()` with unchanged composite data (the
`diffuseMap` dependency still pending) performs one more final
re-initialization pass (material.js line 306 runs unconditionally) and
re-issues the provider load call for the pending slot, so it is not free of
additional provider load calls or re-initialize invocations. -/
theorem resolve_not_idempotent_cex :
    (afterResolve 10).parserInitCount = 1 ∧
    (afterResolveTwice 10).parserInitCount = 2 ∧
    (afterResolve 10).loadCalls = [10] ∧
    (afterResolveTwice 10).loadCalls = [10, 10] ∧
    ¬ ((afterResolveTwice 10).parserInitCount = (afterResolve 10).parserInitCount ∧
       (afterResolveTwice 10).loadCalls.length = (afterResolve 10).loadCalls.length) := by
  refine ⟨by decide, by decide, by decide, by decide, by decide⟩

set_option maxRecDepth 8000 in
/-- C9 amended: a second `resolve()` with unchanged data is idempotent only
with respect to the bindings — the material's slots and the reference table are
unchanged and no new reference is created — but it performs one additional
final re-initialization pass and one additional provider load call for the
slot still awaiting its dependency. -/
theorem resolve_idempotent_only_for_bindings :
    (afterResolveTwice 10).material = (afterResolve 10).material ∧
    (afterResolveTwice 10).refs = (afterResolve 10).refs ∧
    (afterResolveTwice 10).parserInitCount = (afterResolve 10).parserInitCount + 1 ∧
    (afterResolveTwice 10).loadCalls = (afterResolve 10).loadCalls ++ [10] := by
  refine ⟨by decide, by decide, by decide, by decide⟩

end EngineCore
